import Mathlib

/-!
Shallow embedding of the library-catalog GraphQL backend (canonical revision:
the variant with subscriptions, login, createUser and the bearer-token context
function; the User document schema is the `models/user.js` module shipped with
the repository).  Persisted state is a `DB` record of author, book and user
documents; the object-document layer's id assignment is modelled by a counter.
Asynchronous resolver failures (thrown errors / rejected promises) are
modelled with `Except JsError`.
-/

/-- Errors a resolver can reject with.  `referenceError n` models the
JavaScript `ReferenceError: n is not defined` raised when an unbound
identifier is evaluated; the module only imports `ApolloServer`, `gql` and
`PubSub` from the server framework, so evaluating `new UserInputError(...)`
or `new AuthenticationError(...)` raises a `referenceError`.  The
`userInputError` and `authenticationError` shapes are included so that the
intended (but unreachable) error taxonomy is expressible.  `validationError`
is the raw persistence-layer validation failure; `jwtError` a failed token
verification. -/
inductive JsError where
  | referenceError (ident : String)
  | userInputError (msg : String)
  | authenticationError (msg : String)
  | validationError (msg : String)
  | jwtError
deriving DecidableEq, Repr

/-- An Author document: `name`, optional `born`, system-assigned id. -/
structure Author where
  name : String
  born : Option Int
  id : Nat
deriving DecidableEq, Repr

/-- A Book document: the `author` field stores the referenced Author's id. -/
structure Book where
  title : String
  published : Int
  author : Nat
  genres : List String
  id : Nat
deriving DecidableEq, Repr

/-- A User document (`models/user.js`): username and favourite genre. -/
structure User where
  username : String
  favouriteGenre : String
  id : Nat
deriving DecidableEq, Repr

/-- The persisted state: the three document collections, plus the counter
that models the store's fresh-id assignment. -/
structure DB where
  authors : List Author
  books : List Book
  users : List User
  nextId : Nat
deriving DecidableEq, Repr

/-- `Author.findOne({ name })`: first stored Author with that exact name. -/
def Author.findOne (db : DB) (name : String) : Option Author :=
  db.authors.find? (fun a => a.name == name)

/-- `User.findOne({ username })`: first stored User with that username. -/
def User.findOne (db : DB) (username : String) : Option User :=
  db.users.find? (fun u => u.username == username)

/-- `User.findById(id)`: stored User with the given id. -/
def User.findById (db : DB) (id : Nat) : Option User :=
  db.users.find? (fun u => u.id == id)

/-- The token payload built by `login`: `{ username, id }`. -/
structure Payload where
  username : String
  id : Nat
deriving DecidableEq, Repr

/-- Reads a maximal prefix of `'1'` characters, returning its length and the
rest.  Used by the concrete token encoding below. -/
def readUnary : List Char → Nat × List Char
  | [] => (0, [])
  | c :: rest =>
    if c == '1' then
      let p := readUnary rest
      (p.1 + 1, p.2)
    else (0, c :: rest)

/-- Concrete injective encoding of a signed token: the username length in
unary, a separator, the username characters, the id in unary, a separator,
then the signing secret.  The token cryptography is an external collaborator;
this encoding models exactly what the resolvers rely on: `sign` produces a
string from which `verify` recovers the payload iff the same secret is
presented. -/
def encTok (p : Payload) (secret : String) : List Char :=
  List.replicate p.username.length '1' ++
    '#' :: (p.username.data ++ (List.replicate p.id '1' ++ '#' :: secret.data))

/-- Decoder for `encTok`: recovers the payload and the secret the token was
signed with, or `none` for a malformed string. -/
def decTok (cs : List Char) : Option (Payload × String) :=
  match readUnary cs with
  | (n, '#' :: r2) =>
    match readUnary (r2.drop n) with
    | (i, '#' :: r5) => some ({ username := String.mk (r2.take n), id := i }, String.mk r5)
    | _ => none
  | _ => none

/-- `jwt.sign(payload, JWT_SECRET)`. -/
def jwt.sign (p : Payload) (secret : String) : String :=
  String.mk (encTok p secret)

/-- `jwt.verify(token, JWT_SECRET)`: decodes the token and checks it was
signed with the presented secret; throws (`jwtError`) otherwise. -/
def jwt.verify (token : String) (secret : String) : Except JsError Payload :=
  match decTok token.data with
  | some (p, s) => if s = secret then .ok p else .error .jwtError
  | none => .error .jwtError

theorem readUnary_replicate (n : Nat) (r : List Char) :
    readUnary (List.replicate n '1' ++ '#' :: r) = (n, '#' :: r) := by
  induction n with
  | zero => simp [readUnary]
  | succ k ih => simp [List.replicate, readUnary, ih]

theorem decTok_encTok (p : Payload) (s : String) : decTok (encTok p s) = some (p, s) := by
  have hlen : p.username.length = p.username.data.length := rfl
  simp only [encTok, decTok, readUnary_replicate, hlen, List.take_left, List.drop_left,
    readUnary_replicate]

/-- Sign/verify round trip: verifying a token signed with the same secret
recovers exactly the payload. -/
theorem jwt.verify_sign (p : Payload) (s : String) : jwt.verify (jwt.sign p s) s = .ok p := by
  simp [jwt.verify, jwt.sign, decTok_encTok]

/-- The per-request resolver context: `{ currentUser }`. -/
structure Ctx where
  currentUser : Option User
deriving DecidableEq, Repr

/-- `s.toLowerCase()`, character by character. -/
def toLowerCase (s : String) : String :=
  String.mk (s.data.map Char.toLower)

/-- `s.substring(n)`: drop the first `n` characters. -/
def jsSubstring (s : String) (n : Nat) : String :=
  String.mk (s.data.drop n)

/-- The `ApolloServer` context function of the canonical revision, applied to
the request's `Authorization` header value (`none` when the header is
absent).  A missing header, or one whose lower-cased value does not start
with `"bearer "`, yields `undefined` (modelled `.ok none`: the fall-through
return of the source function) — no error is raised.  Otherwise the raw
header past the 7-character scheme prefix is verified (a verification
failure propagates, rejecting the request) and the User is looked up by the
decoded id; a failed lookup leaves `currentUser` empty.  An empty-string
header is falsy in the source's `auth && ...` test and also fails the prefix
test here, so the two conditions coincide. -/
def buildContext (db : DB) (authorization : Option String) (JWT_SECRET : String) :
    Except JsError (Option Ctx) :=
  match authorization with
  | none => .ok none
  | some auth =>
    if (toLowerCase auth).data.take 7 == "bearer ".data then
      match jwt.verify (jsSubstring auth 7) JWT_SECRET with
      | .ok decodedToken => .ok (some { currentUser := User.findById db decodedToken.id })
      | .error e => .error e
    else
      .ok none

/-- `checkIfLoggedIn(context)`: throws when `context.currentUser` is absent.
The source throws `new AuthenticationError("Not authenticated")`, but
`AuthenticationError` is never imported from the server framework (the only
destructured names are `ApolloServer`, `gql` and `PubSub`), so evaluating the
identifier raises `ReferenceError: AuthenticationError is not defined`. -/
def checkIfLoggedIn (context : Ctx) : Except JsError Unit :=
  match context.currentUser with
  | none => .error (.referenceError "AuthenticationError")
  | some _ => .ok ()

/-- Arguments of the `allBooks` query; the schema accepts both filters. -/
structure AllBooksArgs where
  author : Option String
  genre : Option String
deriving DecidableEq, Repr

/-- `Query.allBooks`: `if (!args.genre) return Book.find({});
return Book.find({ genres: args.genre })`.  A missing genre — and, by
JavaScript falsiness, an empty-string genre — returns every Book; otherwise
the Books whose genre list contains the argument.  The `author` argument is
never consulted. -/
def Query.allBooks (db : DB) (args : AllBooksArgs) : List Book :=
  match args.genre with
  | none => db.books
  | some g =>
    if g == "" then db.books
    else db.books.filter (fun b => b.genres.contains g)

/-- `Author.bookCount`: `Book.find({ author: root })` — the document passed
as the filter value is cast to its id — then the length of the result. -/
def Author.bookCount (db : DB) (root : Author) : Nat :=
  (db.books.filter (fun b => b.author == root.id)).length

/-- Arguments of the `addBook` mutation. -/
structure AddBookArgs where
  title : String
  author : String
  published : Int
  genres : List String
deriving DecidableEq, Repr

/-- Modelled from the spec: `models/book.js` is not part of the sources; per
the data model, `title` is a required field, so persistence validation
fails exactly when the title is empty. -/
def bookValid (b : Book) : Bool :=
  b.title != ""

/-- `Mutation.addBook`.  Returns the list of `BOOK_ADDED` events published
during the call, the resulting store, and the resolver's outcome.  Control
flow of the source: the guard runs first; the Author is looked up by name
and, when absent, a new Author is created and saved; the Book is
constructed; `pubsub.publish("BOOK_ADDED", { bookAdded: book })` runs; then
`return book.save()`.  The try/catch wraps the author save and the book
construction — in this sequential model the save of a fresh author cannot
fail, so the catch branch (which would itself raise
`ReferenceError: UserInputError is not defined`) is unreachable — while the
rejection of `book.save()` escapes it, because the promise is returned
without being awaited; a failed book save therefore propagates as the raw
validation error, after the event was already published. -/
def Mutation.addBook (db : DB) (context : Ctx) (args : AddBookArgs) :
    List Book × DB × Except JsError Book :=
  match checkIfLoggedIn context with
  | .error e => ([], db, .error e)
  | .ok _ =>
    let authorAndDb : Author × DB :=
      match Author.findOne db args.author with
      | some a => (a, db)
      | none =>
        let newAuthor : Author := { name := args.author, born := none, id := db.nextId }
        (newAuthor, { db with authors := db.authors ++ [newAuthor], nextId := db.nextId + 1 })
    let db1 := authorAndDb.2
    let book : Book := { title := args.title, published := args.published,
                         author := authorAndDb.1.id, genres := args.genres, id := db1.nextId }
    if bookValid book then
      ([book], { db1 with books := db1.books ++ [book], nextId := db1.nextId + 1 }, .ok book)
    else
      ([book], db1, .error (.validationError "Book validation failed"))

/-- `findOneAndUpdate({ name }, { born })` updates the first matching
document in place. -/
def updateBornFirst (authors : List Author) (name : String) (born : Int) : List Author :=
  match authors with
  | [] => []
  | a :: rest =>
    if a.name == name then { a with born := some born } :: rest
    else a :: updateBornFirst rest name born

/-- `Mutation.editAuthor`: guard, then
`Author.findOneAndUpdate({ name }, { born: setBornTo }, { returnNewDocument: true })`.
`returnNewDocument` is not an option the ODM recognises (it wants
`new: true`), so the call resolves to the document as it was **before** the
update; the store itself is updated.  The source's `if (!author)` tests the
unawaited query object and never fires, but the returned thenable resolves
to `null` when no Author matches, which is what this definition returns. -/
def Mutation.editAuthor (db : DB) (context : Ctx) (name : String) (setBornTo : Int) :
    DB × Except JsError (Option Author) :=
  match checkIfLoggedIn context with
  | .error e => (db, .error e)
  | .ok _ =>
    match Author.findOne db name with
    | none => (db, .ok none)
    | some a =>
      ({ db with authors := updateBornFirst db.authors name setBornTo }, .ok (some a))

/-- Validation performed by the User schema (`models/user.js`) on save.
`username` and `favouriteGenre` both carry a minimum length of 3 (empty
strings fail the same check, subsuming `required`).  **No uniqueness check
appears**: the schema spells the option `unqiue: true`, which the ODM
silently ignores, and the unique-validator plugin only acts on fields
declaring `unique: true` — so duplicate usernames save successfully. -/
def userValid (u : User) : Bool :=
  decide (3 ≤ u.username.length) && decide (3 ≤ u.favouriteGenre.length)

/-- `Mutation.createUser`: constructs the User and saves it; a rejected save
is caught by `.catch`, whose body evaluates the unimported `UserInputError`
and therefore raises `ReferenceError: UserInputError is not defined`. -/
def Mutation.createUser (db : DB) (username favouriteGenre : String) :
    DB × Except JsError User :=
  let user : User := { username := username, favouriteGenre := favouriteGenre, id := db.nextId }
  if userValid user then
    ({ db with users := db.users ++ [user], nextId := db.nextId + 1 }, .ok user)
  else
    (db, .error (.referenceError "UserInputError"))

/-- `Mutation.login`: looks the User up by username; when the lookup fails
**or** the password is not the fixed secret, the single statement
`throw new UserInputError("Wrong credentials")` runs — and, `UserInputError`
being unimported, raises `ReferenceError: UserInputError is not defined`
in both cases.  On success, returns the signed `{ username, id }` token. -/
def Mutation.login (db : DB) (username password : String) (JWT_SECRET : String) :
    Except JsError String :=
  match User.findOne db username with
  | none => .error (.referenceError "UserInputError")
  | some user =>
    if password != "secret" then .error (.referenceError "UserInputError")
    else .ok (jwt.sign { username := user.username, id := user.id } JWT_SECRET)

/-- Helper: `find?` by username returns the member itself when its username
is unique in the list. -/
theorem find_user_of_uniq (l : List User) (u : User) (hmem : u ∈ l)
    (huniq : ∀ v ∈ l, v.username = u.username → v = u) :
    l.find? (fun v => v.username == u.username) = some u := by
  induction l with
  | nil => cases hmem
  | cons a t ih =>
    by_cases h : a.username = u.username
    · have ha : a = u := huniq a (List.mem_cons_self a t) h
      simp [List.find?, h, ha]
    · have hu : u ∈ t := by
        rcases List.mem_cons.mp hmem with h1 | h1
        · exact absurd (by rw [h1]) h
        · exact h1
      have hb : (a.username == u.username) = false := by simpa using h
      simp only [List.find?, hb]
      exact ih hu (fun v hv => huniq v (List.mem_cons_of_mem a hv))

/-- C1: an `addBook` call whose context carries no current user fails before
touching the store — no Book (and no Author) is persisted and no event is
published — but the failure it produces is
`ReferenceError: AuthenticationError is not defined`, because the guard's
`AuthenticationError` is never imported, not the `NotAuthenticated`
(authentication) error the specification names. -/
theorem addBook_unauthenticated_referenceError (db : DB) (context : Ctx) (args : AddBookArgs)
    (h : context.currentUser = none) :
    Mutation.addBook db context args =
      ([], db, .error (.referenceError "AuthenticationError")) := by
  simp [Mutation.addBook, checkIfLoggedIn, h]

theorem addBook_unauthenticated_referenceError_witness :
    (({ currentUser := none } : Ctx).currentUser = none)
    ∧ Mutation.addBook ⟨[], [], [], 0⟩ { currentUser := none } ⟨"T", "A", 2000, ["x"]⟩ =
        ([], ⟨[], [], [], 0⟩, .error (.referenceError "AuthenticationError")) :=
  ⟨rfl, addBook_unauthenticated_referenceError ⟨[], [], [], 0⟩ { currentUser := none }
    ⟨"T", "A", 2000, ["x"]⟩ rfl⟩

/-- C2: the context builder never raises for an absent header or a header
without the case-insensitive `"bearer "` prefix, and yields a context with
no current user; with the prefix present and the token verified, the User
is looked up by the decoded id, and a failed lookup likewise yields a
context with no current user. -/
theorem buildContext_cases (db : DB) (S : String) :
    buildContext db none S = .ok none
    ∧ (∀ a : String, ((toLowerCase a).data.take 7 == "bearer ".data) = false →
        buildContext db (some a) S = .ok none)
    ∧ (∀ (a : String) (p : Payload), ((toLowerCase a).data.take 7 == "bearer ".data) = true →
        jwt.verify (jsSubstring a 7) S = .ok p →
        buildContext db (some a) S = .ok (some { currentUser := User.findById db p.id }))
    ∧ (∀ (a : String) (p : Payload), ((toLowerCase a).data.take 7 == "bearer ".data) = true →
        jwt.verify (jsSubstring a 7) S = .ok p → User.findById db p.id = none →
        buildContext db (some a) S = .ok (some { currentUser := none })) := by
  refine ⟨rfl, ?_, ?_, ?_⟩
  · intro a hpre
    simp [buildContext, hpre]
  · intro a p hpre hver
    simp [buildContext, hpre, hver]
  · intro a p hpre hver hfind
    simp [buildContext, hpre, hver, hfind]

def wS : String := "s3cr3t"

def wUser : User := { username := "ada", favouriteGenre := "fantasy", id := 1 }

def wDB : DB := { authors := [], books := [], users := [wUser], nextId := 5 }

def wHdr : String := "BEARER " ++ jwt.sign { username := "ada", id := 1 } wS

def wHdr9 : String := "Bearer " ++ jwt.sign { username := "bob", id := 9 } wS

theorem buildContext_cases_witness :
    buildContext wDB none wS = .ok none
    ∧ buildContext wDB (some "Basic abc") wS = .ok none
    ∧ buildContext wDB (some wHdr) wS = .ok (some { currentUser := some wUser })
    ∧ buildContext wDB (some wHdr9) wS = .ok (some { currentUser := none }) := by
  have h := buildContext_cases wDB wS
  refine ⟨h.1, h.2.1 "Basic abc" (by decide), ?_, ?_⟩
  · have h3 := h.2.2.1 wHdr { username := "ada", id := 1 } (by decide) (by rfl)
    simpa using h3
  · exact h.2.2.2 wHdr9 { username := "bob", id := 9 } (by decide) (by rfl) (by decide)

/-- C3: for a stored User whose username is unique in the store (the data
model's uniqueness invariant), `login` with the accepted secret returns a
signed token, and verifying that token with the same server secret decodes
to exactly that User's `{ username, id }` pair. -/
theorem login_token_roundtrip (db : DB) (u : User) (S : String)
    (hmem : u ∈ db.users)
    (huniq : ∀ v ∈ db.users, v.username = u.username → v = u) :
    Mutation.login db u.username "secret" S = .ok (jwt.sign { username := u.username, id := u.id } S)
    ∧ jwt.verify (jwt.sign { username := u.username, id := u.id } S) S =
        .ok { username := u.username, id := u.id } := by
  constructor
  · have hfind : User.findOne db u.username = some u :=
      find_user_of_uniq db.users u hmem huniq
    simp [Mutation.login, hfind]
  · exact jwt.verify_sign _ _

theorem login_token_roundtrip_witness :
    (wUser ∈ wDB.users ∧ ∀ v ∈ wDB.users, v.username = wUser.username → v = wUser)
    ∧ (Mutation.login wDB wUser.username "secret" wS =
         .ok (jwt.sign { username := wUser.username, id := wUser.id } wS)
       ∧ jwt.verify (jwt.sign { username := wUser.username, id := wUser.id } wS) wS =
           .ok { username := wUser.username, id := wUser.id }) :=
  ⟨by constructor
      · exact List.mem_singleton.mpr rfl
      · intro v hv _
        simpa using List.mem_singleton.mp hv,
   login_token_roundtrip wDB wUser wS (List.mem_singleton.mpr rfl)
     (fun v hv _ => by simpa using List.mem_singleton.mp hv)⟩

/-- C4: the two `login` failure causes — unknown username, wrong password —
produce literally the same error value (the claim's non-distinction holds),
but that value is `ReferenceError: UserInputError is not defined`, an
internal server error, not the user-facing `InvalidCredentials`
(`UserInputError("Wrong credentials")`) shape the specification names,
because `UserInputError` is never imported. -/
theorem login_failure_uniform (db : DB) (username password S : String)
    (h : User.findOne db username = none ∨ password ≠ "secret") :
    Mutation.login db username password S = .error (.referenceError "UserInputError") := by
  rcases h with h | h
  · simp [Mutation.login, h]
  · cases hfind : User.findOne db username with
    | none => simp [Mutation.login, hfind]
    | some u => simp [Mutation.login, hfind, h]

theorem login_failure_uniform_witness :
    (User.findOne wDB "nobody" = none ∨ "secret" ≠ "secret")
    ∧ Mutation.login wDB "nobody" "secret" wS = .error (.referenceError "UserInputError") :=
  ⟨Or.inl (by decide), login_failure_uniform wDB "nobody" "secret" wS (Or.inl (by decide))⟩

/-- C5: an authenticated `addBook` whose author name matches no stored
Author, with a valid title and a store whose books reference no id at the
fresh-id counter, persists exactly one new Author (named by the argument),
persists the new Book referencing that Author's id, publishes it, and the
new Author's `bookCount` over the resulting store is 1. -/
theorem addBook_new_author_bookCount_one (db : DB) (context : Ctx) (args : AddBookArgs)
    (cu : User)
    (hauth : context.currentUser = some cu)
    (hnew : Author.findOne db args.author = none)
    (htitle : args.title ≠ "")
    (hfresh : ∀ b ∈ db.books, b.author ≠ db.nextId) :
    Mutation.addBook db context args =
      ([{ title := args.title, published := args.published, author := db.nextId,
          genres := args.genres, id := db.nextId + 1 }],
       { authors := db.authors ++ [{ name := args.author, born := none, id := db.nextId }],
         books := db.books ++ [{ title := args.title, published := args.published,
                                 author := db.nextId, genres := args.genres,
                                 id := db.nextId + 1 }],
         users := db.users, nextId := db.nextId + 2 },
       .ok { title := args.title, published := args.published, author := db.nextId,
             genres := args.genres, id := db.nextId + 1 })
    ∧ Author.bookCount (Mutation.addBook db context args).2.1
        { name := args.author, born := none, id := db.nextId } = 1 := by
  have hb : (args.title != "") = true := by simpa using htitle
  have heq : Mutation.addBook db context args =
      ([{ title := args.title, published := args.published, author := db.nextId,
          genres := args.genres, id := db.nextId + 1 }],
       { authors := db.authors ++ [{ name := args.author, born := none, id := db.nextId }],
         books := db.books ++ [{ title := args.title, published := args.published,
                                 author := db.nextId, genres := args.genres,
                                 id := db.nextId + 1 }],
         users := db.users, nextId := db.nextId + 2 },
       .ok { title := args.title, published := args.published, author := db.nextId,
             genres := args.genres, id := db.nextId + 1 }) := by
    simp [Mutation.addBook, checkIfLoggedIn, hauth, hnew, bookValid, hb]
  have hnilf : db.books.filter (fun b => b.author == db.nextId) = [] := by
    rw [List.filter_eq_nil_iff]
    intro b hbmem
    simpa using hfresh b hbmem
  refine ⟨heq, ?_⟩
  rw [heq]
  simp [Author.bookCount, List.filter_append, hnilf]

theorem addBook_new_author_bookCount_one_witness :
    (({ currentUser := some wUser } : Ctx).currentUser = some wUser
     ∧ Author.findOne ⟨[], [], [], 0⟩ "A" = none
     ∧ ("T" : String) ≠ ""
     ∧ ∀ b ∈ (⟨[], [], [], 0⟩ : DB).books, b.author ≠ (⟨[], [], [], 0⟩ : DB).nextId)
    ∧ (Mutation.addBook ⟨[], [], [], 0⟩ { currentUser := some wUser } ⟨"T", "A", 2000, ["fantasy"]⟩ =
        ([{ title := "T", published := 2000, author := 0, genres := ["fantasy"], id := 1 }],
         { authors := [{ name := "A", born := none, id := 0 }],
           books := [{ title := "T", published := 2000, author := 0, genres := ["fantasy"], id := 1 }],
           users := [], nextId := 2 },
         .ok { title := "T", published := 2000, author := 0, genres := ["fantasy"], id := 1 })
       ∧ Author.bookCount
           (Mutation.addBook ⟨[], [], [], 0⟩ { currentUser := some wUser }
             ⟨"T", "A", 2000, ["fantasy"]⟩).2.1
           { name := "A", born := none, id := 0 } = 1) :=
  ⟨⟨rfl, rfl, by decide, by simp⟩,
   addBook_new_author_bookCount_one ⟨[], [], [], 0⟩ { currentUser := some wUser }
     ⟨"T", "A", 2000, ["fantasy"]⟩ wUser rfl rfl (by decide) (by simp)⟩

def cDB : DB :=
  { authors := [{ name := "A", born := none, id := 0 }],
    books := [{ title := "B1", published := 2000, author := 0, genres := ["fantasy"], id := 1 }],
    users := [], nextId := 2 }

/-- C6 counterexample: with the genre argument present but equal to the
empty string, `allBooks` returns every Book — JavaScript falsiness makes
`!args.genre` treat `""` like an absent argument — and not the Books whose
genre list contains `""`. -/
theorem allBooks_empty_genre_counterexample :
    Query.allBooks cDB { author := none, genre := some "" } ≠
      cDB.books.filter (fun b => b.genres.contains "") := by
  decide

/-- C6 amended: when the genre argument is present and non-empty the result
is exactly the persisted Books whose genre list contains it; when it is
absent or the empty string the result is all persisted Books; and the
result never depends on the author argument. -/
theorem allBooks_semantics (db : DB) (author1 author2 : Option String) (g : String)
    (hg : g ≠ "") :
    Query.allBooks db { author := author1, genre := some g } =
      db.books.filter (fun b => b.genres.contains g)
    ∧ Query.allBooks db { author := author1, genre := none } = db.books
    ∧ Query.allBooks db { author := author1, genre := some "" } = db.books
    ∧ (∀ genre, Query.allBooks db { author := author1, genre := genre } =
        Query.allBooks db { author := author2, genre := genre }) := by
  have hgb : (g == "") = false := by simpa using hg
  refine ⟨by simp [Query.allBooks, hgb], rfl, by simp [Query.allBooks], fun genre => rfl⟩

theorem allBooks_semantics_witness :
    ("fantasy" : String) ≠ ""
    ∧ (Query.allBooks cDB { author := some "A", genre := some "fantasy" } =
         cDB.books.filter (fun b => b.genres.contains "fantasy")
       ∧ Query.allBooks cDB { author := some "A", genre := none } = cDB.books
       ∧ Query.allBooks cDB { author := some "A", genre := some "" } = cDB.books
       ∧ (∀ genre, Query.allBooks cDB { author := some "A", genre := genre } =
           Query.allBooks cDB { author := none, genre := genre })) :=
  ⟨by decide, allBooks_semantics cDB (some "A") none "fantasy" (by decide)⟩

/-- C7: when the Book fails persistence validation in an authenticated
`addBook` that created a new Author, the Author stays persisted (no
rollback) and the Book is not — as the claim says — but the operation
rejects with the raw persistence validation error: the source returns
`book.save()` without awaiting it, so the surrounding try/catch cannot
intercept the rejection and no `InvalidInput` (`UserInputError`) carrying
the arguments is produced. -/
theorem addBook_failed_save_keeps_author (db : DB) (context : Ctx) (args : AddBookArgs)
    (cu : User)
    (hauth : context.currentUser = some cu)
    (hnew : Author.findOne db args.author = none)
    (htitle : args.title = "") :
    Mutation.addBook db context args =
      ([{ title := args.title, published := args.published, author := db.nextId,
          genres := args.genres, id := db.nextId + 1 }],
       { db with authors := db.authors ++ [{ name := args.author, born := none, id := db.nextId }],
                 nextId := db.nextId + 1 },
       .error (.validationError "Book validation failed")) := by
  simp [Mutation.addBook, checkIfLoggedIn, hauth, hnew, bookValid, htitle]

theorem addBook_failed_save_keeps_author_witness :
    (({ currentUser := some wUser } : Ctx).currentUser = some wUser
     ∧ Author.findOne ⟨[], [], [], 0⟩ "A" = none
     ∧ ("" : String) = "")
    ∧ Mutation.addBook ⟨[], [], [], 0⟩ { currentUser := some wUser } ⟨"", "A", 2000, ["x"]⟩ =
        ([{ title := "", published := 2000, author := 0, genres := ["x"], id := 1 }],
         { authors := [{ name := "A", born := none, id := 0 }], books := [], users := [],
           nextId := 1 },
         .error (.validationError "Book validation failed")) :=
  ⟨⟨rfl, rfl, rfl⟩,
   addBook_failed_save_keeps_author ⟨[], [], [], 0⟩ { currentUser := some wUser }
     ⟨"", "A", 2000, ["x"]⟩ wUser rfl rfl rfl⟩

def wCtx : Ctx := { currentUser := some wUser }

def eDB : DB :=
  { authors := [{ name := "X", born := none, id := 0 }], books := [], users := [wUser],
    nextId := 5 }

/-- C8: an authenticated `editAuthor` on a stored Author does set `born` in
the store, but the resolver returns the **pre-update** document — here the
returned Author still has `born = none` after setting it to 1980 — because
`returnNewDocument: true` is not an option the ODM recognises (it requires
`new: true`); the claim's "the updated Author is returned" fails. -/
theorem editAuthor_returns_stale_author :
    Mutation.editAuthor eDB wCtx "X" 1980 =
      ({ eDB with authors := [{ name := "X", born := some 1980, id := 0 }] },
       .ok (some { name := "X", born := none, id := 0 })) := by
  rfl

def dbEmpty : DB := { authors := [], books := [], users := [], nextId := 0 }

/-- C9: `createUser` does not enforce username uniqueness — the schema
misspells the option as `unqiue`, so the ODM ignores it and the
unique-validator plugin has nothing to act on: creating `"ada"` twice
succeeds and persists two users with the same username — and a
length-constraint violation rejects with
`ReferenceError: UserInputError is not defined`, not an `InvalidInput`
(`UserInputError`) error, because `UserInputError` is never imported. -/
theorem createUser_duplicate_username_persists :
    (Mutation.createUser (Mutation.createUser dbEmpty "ada" "fantasy").1 "ada" "fantasy").2 =
      .ok { username := "ada", favouriteGenre := "fantasy", id := 1 }
    ∧ ((Mutation.createUser (Mutation.createUser dbEmpty "ada" "fantasy").1 "ada"
          "fantasy").1.users.filter (fun u => u.username == "ada")).length = 2
    ∧ Mutation.createUser dbEmpty "ab" "fantasy" =
        (dbEmpty, .error (.referenceError "UserInputError")) :=
  ⟨rfl, rfl, rfl⟩

/-- C10: in every authenticated `addBook` execution (over a store whose book
ids are below the fresh-id counter), exactly one `BOOK_ADDED` event carrying
the constructed Book is published, and it is published regardless of the
subsequent save: when the save fails, the operation rejects while the
published Book is absent from the resulting store — subscribers can receive
a Book that was never persisted.  The publish precedes the save in the
source (`pubsub.publish` on the line before `return book.save()`), which is
what makes the event unconditional on the save's outcome. -/
theorem addBook_publishes_regardless_of_save (db : DB) (context : Ctx) (args : AddBookArgs)
    (cu : User)
    (hauth : context.currentUser = some cu)
    (hwf : ∀ b ∈ db.books, b.id < db.nextId) :
    ∃ bk : Book,
      (Mutation.addBook db context args).1 = [bk]
      ∧ ((Mutation.addBook db context args).2.2 = .ok bk
         ∨ ((Mutation.addBook db context args).2.2 =
              .error (.validationError "Book validation failed")
            ∧ bk ∉ (Mutation.addBook db context args).2.1.books)) := by
  cases hfind : Author.findOne db args.author with
  | none =>
    by_cases ht : args.title = ""
    · refine ⟨{ title := args.title, published := args.published, author := db.nextId,
                genres := args.genres, id := db.nextId + 1 }, ?_, Or.inr ⟨?_, ?_⟩⟩
      · simp [Mutation.addBook, checkIfLoggedIn, hauth, hfind, bookValid, ht]
      · simp [Mutation.addBook, checkIfLoggedIn, hauth, hfind, bookValid, ht]
      · simp only [Mutation.addBook, checkIfLoggedIn, hauth, hfind, bookValid, ht]
        intro hmem
        have hlt := hwf _ (by simpa [bookValid] using hmem)
        simp at hlt
    · have hb : (args.title != "") = true := by simpa using ht
      refine ⟨{ title := args.title, published := args.published, author := db.nextId,
                genres := args.genres, id := db.nextId + 1 }, ?_, Or.inl ?_⟩
      · simp [Mutation.addBook, checkIfLoggedIn, hauth, hfind, bookValid, hb]
      · simp [Mutation.addBook, checkIfLoggedIn, hauth, hfind, bookValid, hb]
  | some a =>
    by_cases ht : args.title = ""
    · refine ⟨{ title := args.title, published := args.published, author := a.id,
                genres := args.genres, id := db.nextId }, ?_, Or.inr ⟨?_, ?_⟩⟩
      · simp [Mutation.addBook, checkIfLoggedIn, hauth, hfind, bookValid, ht]
      · simp [Mutation.addBook, checkIfLoggedIn, hauth, hfind, bookValid, ht]
      · simp only [Mutation.addBook, checkIfLoggedIn, hauth, hfind, bookValid, ht]
        intro hmem
        have hlt := hwf _ (by simpa [bookValid] using hmem)
        simp at hlt
    · have hb : (args.title != "") = true := by simpa using ht
      refine ⟨{ title := args.title, published := args.published, author := a.id,
                genres := args.genres, id := db.nextId }, ?_, Or.inl ?_⟩
      · simp [Mutation.addBook, checkIfLoggedIn, hauth, hfind, bookValid, hb]
      · simp [Mutation.addBook, checkIfLoggedIn, hauth, hfind, bookValid, hb]

theorem addBook_publishes_regardless_of_save_witness :
    (({ currentUser := some wUser } : Ctx).currentUser = some wUser
     ∧ ∀ b ∈ (⟨[], [], [], 0⟩ : DB).books, b.id < (⟨[], [], [], 0⟩ : DB).nextId)
    ∧ ∃ bk : Book,
        (Mutation.addBook ⟨[], [], [], 0⟩ { currentUser := some wUser } ⟨"", "A", 2000, []⟩).1 =
          [bk]
        ∧ ((Mutation.addBook ⟨[], [], [], 0⟩ { currentUser := some wUser }
              ⟨"", "A", 2000, []⟩).2.2 = .ok bk
           ∨ ((Mutation.addBook ⟨[], [], [], 0⟩ { currentUser := some wUser }
                 ⟨"", "A", 2000, []⟩).2.2 =
                .error (.validationError "Book validation failed")
              ∧ bk ∉ (Mutation.addBook ⟨[], [], [], 0⟩ { currentUser := some wUser }
                  ⟨"", "A", 2000, []⟩).2.1.books)) :=
  ⟨⟨rfl, by simp⟩,
   addBook_publishes_regardless_of_save ⟨[], [], [], 0⟩ { currentUser := some wUser }
     ⟨"", "A", 2000, []⟩ wUser rfl (by simp)⟩
